import Mathlib

/-!
Shallow embedding of the QG3D backend (src/server.js): the
payment-intent endpoint, the webhook handler, and the order-email
endpoint, together with theorems checking the specification claims.

Modelling conventions:
* JS numbers are modelled as rationals.
* JS object lookups are modelled as functions to Option.
* JS falsiness of a possibly-absent string (used by the patterns
  orderData.paymentId || N/A and the orderNotes ternary) is modelled by
  Option String, where some "" behaves like a falsy empty string.
* Express handlers are modelled as pure functions from the already
  parsed request data to the response they produce (status, JSON body)
  plus the list of console log lines they emit; an external call that
  the handler performs (the Stripe createIntent call, the mail sends)
  is visible in the result type.
-/

namespace QG3D

/-- Rounding of a JS number by Math.round: floor of x + 1/2 (JS rounds
half toward positive infinity). -/
def jsRound (q : ℚ) : Int := (q + 1/2).floor

/-- Body of a POST /create-payment-intent request after JSON parsing:
destructured as amount, currency (defaulted to eur when absent) and
metadata (defaulted to the empty object when absent) in server.js. -/
structure PaymentRequestBody where
  amount : Option ℚ
  currency : Option String
  metadata : Option (String → Option String)

/-- JSON error response: HTTP status plus the error message field. -/
structure ApiError where
  status : Nat
  error : String
deriving DecidableEq

/-- Argument object the handler passes to stripe.paymentIntents.create:
rounded amount, currency, automatic_payment_methods.enabled, and the
metadata object built by spreading the caller metadata and then binding
integration_source. -/
structure GatewayCall where
  amount : Int
  currency : String
  automaticPaymentMethodsEnabled : Bool
  metadata : String → Option String

/-- Error response of the amount validation in server.js lines 52-56. -/
def minAmountError : ApiError :=
  { status := 400, error := "Le montant minimum est de 0.50€" }

/-- Handler of POST /create-payment-intent (server.js lines 47-83) up to
the gateway call: validates the amount (rejecting an absent or falsy
amount and any amount below 50) and otherwise produces the exact
argument object passed to stripe.paymentIntents.create. A returned
error means the handler responded before the gateway call; a returned
GatewayCall is the gateway invocation itself. -/
def createPaymentIntent (b : PaymentRequestBody) : Except ApiError GatewayCall :=
  match b.amount with
  | none => .error minAmountError
  | some a =>
    if a = 0 ∨ a < 50 then
      .error minAmountError
    else
      .ok { amount := jsRound a
            currency := b.currency.getD "eur"
            automaticPaymentMethodsEnabled := true
            metadata := fun k =>
              if k = "integration_source" then some "qg3d-website"
              else (b.metadata.getD (fun _ => none)) k }

/-- C2 counterexample input: amount 49.7 (497/10). Math.round gives 50,
which is at least 50, yet the handler rejects because the check
`amount < 50` runs on the raw value before rounding. -/
def cexBody : PaymentRequestBody :=
  { amount := some (497/10), currency := none, metadata := none }

/-- Concrete accepted request with amount 50 and no currency or
metadata supplied, used by witnesses. -/
def wBody50 : PaymentRequestBody :=
  { amount := some 50, currency := none, metadata := none }

/-- Gateway call produced for wBody50. -/
def wCall50 : GatewayCall :=
  { amount := 50
    currency := "eur"
    automaticPaymentMethodsEnabled := true
    metadata := fun k => if k = "integration_source" then some "qg3d-website" else none }

/-- Concrete accepted request that supplies a currency and a metadata
mapping, used by witnesses. -/
def wBodyMeta : PaymentRequestBody :=
  { amount := some 100
    currency := some "usd"
    metadata := some fun k => if k = "color" then some "red" else none }

/-- Gateway call produced for wBodyMeta. -/
def wCallMeta : GatewayCall :=
  { amount := 100
    currency := "usd"
    automaticPaymentMethodsEnabled := true
    metadata := fun k =>
      if k = "integration_source" then some "qg3d-website"
      else if k = "color" then some "red" else none }

/-- Typed event returned by stripe.webhooks.constructEvent: the event
type string and the id of event.data.object, the only parts the
handler reads. -/
structure WebhookEvent where
  type : String
  objectId : String

/-- Body of a webhook response: a JSON object with the received flag
(res.json) or a plain text body (res.send). -/
inductive WebhookBody where
  | json (received : Bool)
  | text (s : String)
deriving DecidableEq

/-- HTTP response of the webhook handler. -/
structure WebhookResponse where
  status : Nat
  body : WebhookBody
deriving DecidableEq

/-- Observable outcome of one webhook call: the HTTP response, the
console lines emitted by the event-dispatch switch, and the console
line emitted by the signature-verification catch block. -/
structure WebhookResult where
  response : WebhookResponse
  dispatcherLogs : List String
  verifierLogs : List String
deriving DecidableEq

/-- Handler of POST /webhook (server.js lines 86-120), parameterized by
the outcome of stripe.webhooks.constructEvent, an SDK call outside this
repository: an exception message when the signature over the raw body
does not verify against the configured secret (including a missing or
malformed stripe-signature header), or the constructed event. On
failure the handler logs the verification error and returns 400 with
the Webhook Error text before the event switch is reached; on success
the switch runs exactly one branch and the handler responds 200 with
received true. -/
def webhookHandler (r : Except String WebhookEvent) : WebhookResult :=
  match r with
  | .error msg =>
    { response := { status := 400, body := .text ("Webhook Error: " ++ msg) }
      dispatcherLogs := []
      verifierLogs := ["Webhook signature verification failed: " ++ msg] }
  | .ok event =>
    { response := { status := 200, body := .json true }
      dispatcherLogs :=
        if event.type = "payment_intent.succeeded" then
          ["✅ Paiement réussi: " ++ event.objectId]
        else if event.type = "payment_intent.payment_failed" then
          ["❌ Paiement échoué: " ++ event.objectId]
        else
          ["Événement non géré: " ++ event.type]
      verifierLogs := [] }

/-- Settlement state of a promise as reported by Promise.allSettled. -/
inductive Settled where
  | fulfilled
  | rejected
deriving DecidableEq

/-- Promise.allSettled: waits for every promise and reports every
outcome at its own position, never short-circuiting on a rejection. -/
def promiseAllSettled (ps : List Settled) : List Settled := ps

/-- JSON body of the send-order-emails success response. -/
structure EmailOutcome where
  success : Bool
  customerEmailSent : Bool
  adminEmailSent : Bool
deriving DecidableEq

/-- Dual-send tail of POST /send-order-emails (server.js lines 261-276),
parameterized by the settlement of the two transporter.sendMail calls,
which are external I/O: both sends are joined through
Promise.allSettled, each per-recipient boolean is read off its own slot
of the settled array, and the response reports success true together
with the two booleans. -/
def sendOrderEmailsResponse (customerSend adminSend : Settled) : EmailOutcome :=
  let results := promiseAllSettled [customerSend, adminSend]
  { success := true
    customerEmailSent := results.getD 0 .rejected == .fulfilled
    adminEmailSent := results.getD 1 .rejected == .fulfilled }

/-- One element of orderData.items, holding the rendered text of each
field the caller supplied: the route reads name, quantity and price,
while the data model of the spec names a unitPrice field, which a
caller may also supply, so both are carried; none renders as the text
undefined. -/
structure OrderItem where
  name : String
  quantity : Nat
  price : Option String
  unitPrice : Option String
deriving DecidableEq

/-- Rendering of a possibly-absent value inside a JS template literal:
undefined renders as the text undefined. -/
def renderOpt : Option String → String
  | some s => s
  | none => "undefined"

/-- One line of the items list (server.js line 135): the quantity, the
letter x, the name, a hyphen, the price field, the euro sign. -/
def itemLine (i : OrderItem) : String :=
  toString i.quantity ++ "x " ++ i.name ++ " - " ++ renderOpt i.price ++ "€"

/-- Construction of itemsList (server.js lines 134-136): one line per
item, joined with newlines, in the order of orderData.items. -/
def itemsList (items : List OrderItem) : String :=
  String.intercalate "\n" (items.map itemLine)

/-- Modelled from the spec: the item line the claim describes, of the
form quantity × name — price where price is the unitPrice field of the
Order data model. -/
def specItemLine (i : OrderItem) : String :=
  toString i.quantity ++ " × " ++ i.name ++ " — " ++ renderOpt i.unitPrice

/-- Amended-claim lines for C7: defined by direct recursion over the
item sequence, one line per item in input order, where the price shown
is the price field of the item. -/
def amendedItemLines : List OrderItem → List String
  | [] => []
  | i :: rest =>
    (toString i.quantity ++ "x " ++ i.name ++ " - " ++ renderOpt i.price ++ "€") ::
      amendedItemLines rest

/-- Decidable check that the character list n occurs contiguously
inside the second list. -/
def listContainsB (n : List Char) : List Char → Bool
  | [] => n.isEmpty
  | c :: cs => n.isPrefixOf (c :: cs) || listContainsB n cs

/-- C7 counterexample item: the caller supplied unitPrice 10.00 and
price 15.00. -/
def cexItem : OrderItem :=
  { name := "Widget", quantity := 2, price := some "15.00", unitPrice := some "10.00" }

/-- Shipping address of an order, as read by the email route. -/
structure ShippingAddress where
  firstName : String
  lastName : String
  street : String
  zip : String
  city : String
  country : String
  phone : String
deriving DecidableEq

/-- Order record supplied by the caller of POST /send-order-emails. -/
structure Order where
  orderNumber : String
  customerEmail : String
  items : List OrderItem
  shippingAddress : ShippingAddress
  total : ℚ
  paymentId : Option String
  orderNotes : Option String

/-- Rendering of total.toFixed(2): the number of cents obtained by
rounding 100 times the total half up (the floor formula is proved in
toFixed2_cents below; it is computed on the numerator and denominator
directly so that it reduces), printed with exactly two digits after the
decimal point. Faithful for the nonnegative totals of the data model. -/
def toFixed2 (q : ℚ) : String :=
  let cents : Int := Int.fdiv (200 * q.num + q.den) (2 * q.den)
  let whole := cents / 100
  let frac := (cents % 100).natAbs
  toString whole ++ "." ++ (if frac < 10 then "0" else "") ++ toString frac

/-- JS s || dflt on a possibly-absent string: the default replaces both
undefined and the falsy empty string. -/
def jsOrElse (x : Option String) (dflt : String) : String :=
  match x with
  | some s => if s = "" then dflt else s
  | none => dflt

/-- JS String.prototype.trim, written with structural recursion over
the character list so that it evaluates: drops whitespace characters
from both ends. -/
def jsTrim (s : String) : String :=
  ⟨((s.data.dropWhile Char.isWhitespace).reverse.dropWhile Char.isWhitespace).reverse⟩

/-- Shipping address block (server.js lines 139-145): a template with
one line per address part, trimmed at both ends. -/
def shippingAddressBlock (s : ShippingAddress) : String :=
  jsTrim ("\n" ++ s.firstName ++ " " ++ s.lastName
    ++ "\n" ++ s.street
    ++ "\n" ++ s.zip ++ " " ++ s.city
    ++ "\n" ++ s.country
    ++ "\nTéléphone: " ++ s.phone
    ++ "\n        ")

/-- Notification message handed to transporter.sendMail: the from
header (fromField), the to header (toField), the subject and the HTML
body. -/
structure EmailMessage where
  fromField : String
  toField : String
  subject : String
  html : String

/-- HTML body of the customer email (server.js lines 152-203): a pure
function of the resolved frontend url, the generated-at date text and
the order. Braces of the CSS are written as escapes. The payment
identifier is nowhere interpolated. -/
def customerEmailHtml (frontendUrl dateStr : String) (o : Order) : String :=
  "\n<!DOCTYPE html>\n<html>\n<head>\n    <meta charset=\"UTF-8\">\n    <style>\n"
  ++ "        body \x7b font-family: Arial, sans-serif; line-height: 1.6; color: #333; \x7d\n"
  ++ "        .container \x7b max-width: 600px; margin: 0 auto; padding: 20px; \x7d\n"
  ++ "        .header \x7b background-color: #2c2c2c; color: white; padding: 20px; text-align: center; \x7d\n"
  ++ "        .content \x7b padding: 20px; background-color: #f5f5f5; \x7d\n"
  ++ "        .order-details \x7b background: white; padding: 15px; margin: 20px 0; border-left: 4px solid #ff5757; \x7d\n"
  ++ "        .footer \x7b text-align: center; padding: 20px; font-size: 12px; color: #666; \x7d\n"
  ++ "        .button \x7b display: inline-block; padding: 12px 30px; background-color: #ff5757; color: white; text-decoration: none; border-radius: 5px; margin: 20px 0; \x7d\n"
  ++ "    </style>\n</head>\n<body>\n    <div class=\"container\">\n        <div class=\"header\">\n"
  ++ "            <h1>QG3D</h1>\n            <p>Merci pour votre commande !</p>\n        </div>\n        \n"
  ++ "        <div class=\"content\">\n            <h2>Bonjour " ++ o.shippingAddress.firstName ++ ",</h2>\n"
  ++ "            <p>Nous avons bien reçu votre commande et nous vous remercions de votre confiance.</p>\n            \n"
  ++ "            <div class=\"order-details\">\n                <h3>Détails de la commande</h3>\n"
  ++ "                <p><strong>N° de commande :</strong> " ++ o.orderNumber ++ "</p>\n"
  ++ "                <p><strong>Date :</strong> " ++ dateStr ++ "</p>\n"
  ++ "                <p><strong>Montant total :</strong> " ++ toFixed2 o.total ++ "€</p>\n                \n"
  ++ "                <h4>Articles commandés :</h4>\n                <pre>" ++ itemsList o.items ++ "</pre>\n                \n"
  ++ "                <h4>Adresse de livraison :</h4>\n                <pre>" ++ shippingAddressBlock o.shippingAddress ++ "</pre>\n"
  ++ "            </div>\n            \n"
  ++ "            <p>Nous préparons votre commande avec soin. Vous recevrez un email de confirmation d\x27expédition dès que votre colis sera en route.</p>\n            \n"
  ++ "            <a href=\"" ++ frontendUrl ++ "/profile.html\" class=\"button\">Suivre ma commande</a>\n"
  ++ "        </div>\n        \n        <div class=\"footer\">\n"
  ++ "            <p>© 2024 QG3D - Tous droits réservés</p>\n"
  ++ "            <p>Pour toute question, contactez-nous à qg3dprint@gmail.com</p>\n"
  ++ "        </div>\n    </div>\n</body>\n</html>\n            "

/-- Customer email message (server.js lines 148-204). -/
def customerEmailMessage (frontendUrl dateStr : String) (o : Order) : EmailMessage :=
  { fromField := "\"QG3D\" <qg3dprint@gmail.com>"
    toField := o.customerEmail
    subject := "Confirmation de commande #" ++ o.orderNumber
    html := customerEmailHtml frontendUrl dateStr o }

/-- Admin email HTML up to and including the ID Paiement Stripe label
(server.js lines 211-247). -/
def adminHtmlPre (o : Order) : String :=
  "\n<!DOCTYPE html>\n<html>\n<head>\n    <meta charset=\"UTF-8\">\n    <style>\n"
  ++ "        body \x7b font-family: Arial, sans-serif; line-height: 1.6; color: #333; \x7d\n"
  ++ "        .container \x7b max-width: 600px; margin: 0 auto; padding: 20px; \x7d\n"
  ++ "        .header \x7b background-color: #2c2c2c; color: white; padding: 20px; \x7d\n"
  ++ "        .alert \x7b background-color: #ff5757; color: white; padding: 15px; margin: 10px 0; border-radius: 5px; \x7d\n"
  ++ "        .details \x7b background: #f5f5f5; padding: 15px; margin: 10px 0; \x7d\n"
  ++ "    </style>\n</head>\n<body>\n    <div class=\"container\">\n        <div class=\"header\">\n"
  ++ "            <h1>🔔 Nouvelle Commande QG3D</h1>\n        </div>\n        \n"
  ++ "        <div class=\"alert\">\n            <strong>Commande n°" ++ o.orderNumber
  ++ "</strong> - " ++ toFixed2 o.total ++ "€\n        </div>\n        \n"
  ++ "        <div class=\"details\">\n            <h3>Informations Client</h3>\n"
  ++ "            <p><strong>Nom :</strong> " ++ o.shippingAddress.firstName ++ " " ++ o.shippingAddress.lastName ++ "</p>\n"
  ++ "            <p><strong>Email :</strong> " ++ o.customerEmail ++ "</p>\n"
  ++ "            <p><strong>Téléphone :</strong> " ++ o.shippingAddress.phone ++ "</p>\n            \n"
  ++ "            <h3>Articles commandés</h3>\n            <pre>" ++ itemsList o.items ++ "</pre>\n            \n"
  ++ "            <h3>Adresse de livraison</h3>\n            <pre>" ++ shippingAddressBlock o.shippingAddress ++ "</pre>\n            \n"
  ++ "            <h3>Informations de paiement</h3>\n"
  ++ "            <p><strong>ID Paiement Stripe :</strong> "

/-- Admin email HTML between the payment identifier and the notes
ternary (server.js lines 247-250). -/
def adminHtmlMid (o : Order) : String :=
  "</p>\n            <p><strong>Montant :</strong> " ++ toFixed2 o.total ++ "€</p>\n            \n            "

/-- Notes ternary of the admin email (server.js line 250): a heading
and paragraph when orderNotes is truthy, the empty string otherwise. -/
def notesSection (notes : Option String) : String :=
  match notes with
  | some n => if n = "" then "" else "<h3>Notes</h3><p>" ++ n ++ "</p>"
  | none => ""

/-- Admin email HTML after the notes ternary (server.js lines 250-257). -/
def adminHtmlPost (frontendUrl : String) : String :=
  "\n        </div>\n        \n        <p><a href=\"" ++ frontendUrl
  ++ "/admin.html\">Accéder à l\x27interface admin</a></p>\n    </div>\n</body>\n</html>\n            "

/-- HTML body of the admin email (server.js lines 211-257): the parts
around the paymentId interpolation (with N/A fallback) and the notes
ternary. -/
def adminEmailHtml (frontendUrl : String) (o : Order) : String :=
  adminHtmlPre o ++ jsOrElse o.paymentId "N/A" ++ adminHtmlMid o
    ++ notesSection o.orderNotes ++ adminHtmlPost frontendUrl

/-- Admin email message (server.js lines 207-258). -/
def adminEmailMessage (frontendUrl : String) (o : Order) : EmailMessage :=
  { fromField := "\"QG3D Notifications\" <qg3dprint@gmail.com>"
    toField := "qg3dprint@gmail.com"
    subject := "🔔 Nouvelle commande #" ++ o.orderNumber
    html := adminEmailHtml frontendUrl o }

/-- Occurrence of n as a contiguous substring of h. -/
def ContainsStr (h n : String) : Prop := ∃ pre post : String, h = pre ++ (n ++ post)

/-- Sample item used by the concrete orders below. -/
def sampleItem : OrderItem :=
  { name := "Vase", quantity := 1, price := some "25.00", unitPrice := none }

/-- Sample shipping address used by the concrete orders below. -/
def sampleAddress : ShippingAddress :=
  { firstName := "Marie", lastName := "Curie", street := "1 rue des Lilas"
    zip := "75001", city := "Paris", country := "France", phone := "0601020304" }

/-- Concrete order with a payment identifier and no notes. -/
def sampleOrderNoNotes : Order :=
  { orderNumber := "1042", customerEmail := "marie@example.com"
    items := [sampleItem], shippingAddress := sampleAddress
    total := 25, paymentId := some "pi_3ABC", orderNotes := none }

/-- Concrete order with a payment identifier and notes. -/
def sampleOrderFull : Order :=
  { sampleOrderNoNotes with orderNotes := some "Fragile" }

/-- Concrete order without a payment identifier. -/
def sampleOrderNoPid : Order :=
  { sampleOrderNoNotes with paymentId := none }

end QG3D

namespace QG3D

theorem wCall50_eq : createPaymentIntent wBody50 = .ok wCall50 := by
  simp only [createPaymentIntent, wBody50]
  rw [if_neg (by norm_num)]
  simp only [wCall50, Except.ok.injEq]
  norm_num [jsRound, Rat.floor]

theorem wCallMeta_eq : createPaymentIntent wBodyMeta = .ok wCallMeta := by
  simp only [createPaymentIntent, wBodyMeta]
  rw [if_neg (by norm_num)]
  simp only [wCallMeta, Except.ok.injEq]
  norm_num [jsRound, Rat.floor]

/-- C2 (counterexample): the claim says the validator accepts exactly
when the rounded amount is at least 50. At amount 49.7 the rounded
value is 50, yet the handler rejects with the 400 minimum-amount error,
because the comparison `amount < 50` is evaluated on the raw value
before Math.round is applied. -/
theorem createPaymentIntent_roundfirst_cex :
    50 ≤ jsRound (497/10 : ℚ) ∧
    createPaymentIntent cexBody = .error minAmountError := by
  constructor
  · norm_num [jsRound, Rat.floor]
  · simp only [createPaymentIntent, cexBody]
    rw [if_pos]
    norm_num

/-- C2 (amended): for every request whose amount is present, the
handler accepts exactly when the raw, unrounded amount is at least 50;
on acceptance the amount forwarded to the gateway equals
Math.round of the requested amount. -/
theorem createPaymentIntent_amount_validation (b : PaymentRequestBody) (a : ℚ)
    (h : b.amount = some a) :
    ((createPaymentIntent b).isOk = true ↔ 50 ≤ a) ∧
    (∀ call, createPaymentIntent b = .ok call → call.amount = jsRound a) := by
  constructor
  · simp only [createPaymentIntent, h]
    by_cases hc : a = 0 ∨ a < 50
    · rw [if_pos hc]
      simp only [Except.isOk, Except.toBool, Bool.false_eq_true, false_iff, not_le]
      rcases hc with h0 | hlt
      · rw [h0]; norm_num
      · exact hlt
    · rw [if_neg hc]
      push_neg at hc
      simp only [Except.isOk, Except.toBool, true_iff]
      exact hc.2
  · intro call hcall
    simp only [createPaymentIntent, h] at hcall
    by_cases hc : a = 0 ∨ a < 50
    · rw [if_pos hc] at hcall
      exact absurd hcall (by simp)
    · rw [if_neg hc] at hcall
      injection hcall with hcall
      rw [← hcall]

/-- Witness for C2 amended, at the concrete request with amount 50:
the request is accepted and the forwarded amount is Math.round 50. -/
theorem createPaymentIntent_amount_validation_witness :
    (createPaymentIntent wBody50).isOk = true ∧ wCall50.amount = jsRound 50 :=
  ⟨(createPaymentIntent_amount_validation wBody50 50 rfl).1.mpr (by norm_num),
   (createPaymentIntent_amount_validation wBody50 50 rfl).2 wCall50 wCall50_eq⟩

/-- C3: when the amount is absent, and when the amount is present but
strictly below 50, the handler returns the 400 response carrying the
human-readable minimum-amount message, and the Except.error result
means the handler returned before the stripe.paymentIntents.create
call: the gateway is never invoked. -/
theorem createPaymentIntent_rejects_below_minimum (b : PaymentRequestBody) :
    (b.amount = none → createPaymentIntent b = .error minAmountError) ∧
    (∀ a, b.amount = some a → a < 50 → createPaymentIntent b = .error minAmountError) := by
  constructor
  · intro h
    simp only [createPaymentIntent, h]
  · intro a h hlt
    simp only [createPaymentIntent, h]
    rw [if_pos (Or.inr hlt)]

/-- Witness for C3 at the two concrete rejected requests: amount absent
and amount 49. -/
theorem createPaymentIntent_rejects_below_minimum_witness :
    createPaymentIntent { amount := none, currency := none, metadata := none } =
      .error minAmountError ∧
    createPaymentIntent { amount := some 49, currency := none, metadata := none } =
      .error minAmountError :=
  ⟨(createPaymentIntent_rejects_below_minimum _).1 rfl,
   (createPaymentIntent_rejects_below_minimum _).2 49 rfl (by norm_num)⟩

/-- C6: for every caller-supplied metadata mapping, the metadata of the
gateway call binds integration_source to the fixed provenance tag, and
every other key keeps the caller-supplied value unchanged. -/
theorem createPaymentIntent_metadata_provenance (b : PaymentRequestBody)
    (m : String → Option String) (hm : b.metadata = some m)
    (call : GatewayCall) (h : createPaymentIntent b = .ok call) :
    call.metadata "integration_source" = some "qg3d-website" ∧
    ∀ k, k ≠ "integration_source" → call.metadata k = m k := by
  cases hb : b.amount with
  | none => simp [createPaymentIntent, hb] at h
  | some a =>
    simp only [createPaymentIntent, hb] at h
    by_cases hc : a = 0 ∨ a < 50
    · rw [if_pos hc] at h
      exact absurd h (by simp)
    · rw [if_neg hc] at h
      injection h with h
      rw [← h]
      refine ⟨by simp, fun k hk => ?_⟩
      simp [hk, hm]

/-- Witness for C6 at the concrete request wBodyMeta: the forwarded
metadata carries the provenance tag and the caller key color keeps its
value red. -/
theorem createPaymentIntent_metadata_provenance_witness :
    wCallMeta.metadata "integration_source" = some "qg3d-website" ∧
    wCallMeta.metadata "color" = some "red" := by
  obtain ⟨h1, h2⟩ := createPaymentIntent_metadata_provenance wBodyMeta _ rfl wCallMeta wCallMeta_eq
  exact ⟨h1, h2 "color" (by decide)⟩

/-- C10: whenever the gateway call is made, an absent request currency
is forwarded as the default eur, and a supplied currency is forwarded
unchanged. -/
theorem createPaymentIntent_currency_default (b : PaymentRequestBody)
    (call : GatewayCall) (h : createPaymentIntent b = .ok call) :
    (b.currency = none → call.currency = "eur") ∧
    (∀ c, b.currency = some c → call.currency = c) := by
  cases hb : b.amount with
  | none => simp [createPaymentIntent, hb] at h
  | some a =>
    simp only [createPaymentIntent, hb] at h
    by_cases hc : a = 0 ∨ a < 50
    · rw [if_pos hc] at h
      exact absurd h (by simp)
    · rw [if_neg hc] at h
      injection h with h
      rw [← h]
      exact ⟨fun hcur => by simp [hcur], fun c hcur => by simp [hcur]⟩

/-- Witness for C10: the request wBody50 carries no currency and its
gateway call uses eur; the request wBodyMeta carries usd and its
gateway call forwards usd. -/
theorem createPaymentIntent_currency_default_witness :
    wCall50.currency = "eur" ∧ wCallMeta.currency = "usd" :=
  ⟨(createPaymentIntent_currency_default wBody50 wCall50 wCall50_eq).1 rfl,
   (createPaymentIntent_currency_default wBodyMeta wCallMeta wCallMeta_eq).2 "usd" rfl⟩

/-- C1: for every webhook request whose signature verification throws
(mismatch, missing or malformed header), the handler responds 400 and
the event-dispatch switch never runs: no event branch executes and no
dispatcher side effect (log) is emitted. -/
theorem webhook_auth_failure_rejected (msg : String) :
    (webhookHandler (.error msg)).response.status = 400 ∧
    (webhookHandler (.error msg)).dispatcherLogs = [] :=
  ⟨rfl, rfl⟩

/-- C5: for every verified event of type payment_intent.succeeded, the
success branch runs exactly once, emitting exactly its one console
line, and the handler answers 200 with received true; for every
verified event whose type is neither of the two handled ones, the
switch emits the single unhandled-type diagnostic and the handler still
answers 200 with received true. -/
theorem webhook_dispatch_behaviour (e : WebhookEvent) :
    (e.type = "payment_intent.succeeded" →
      (webhookHandler (.ok e)).dispatcherLogs = ["✅ Paiement réussi: " ++ e.objectId] ∧
      (webhookHandler (.ok e)).response = { status := 200, body := .json true }) ∧
    (e.type ≠ "payment_intent.succeeded" → e.type ≠ "payment_intent.payment_failed" →
      (webhookHandler (.ok e)).dispatcherLogs = ["Événement non géré: " ++ e.type] ∧
      (webhookHandler (.ok e)).response = { status := 200, body := .json true }) := by
  constructor
  · intro h
    refine ⟨?_, rfl⟩
    simp [webhookHandler, h]
  · intro h1 h2
    refine ⟨?_, rfl⟩
    simp [webhookHandler, h1, h2]

/-- Witness for C5 at two concrete verified events: a succeeded payment
intent and an event of the unhandled type charge.refunded. -/
theorem webhook_dispatch_behaviour_witness :
    (webhookHandler (.ok { type := "payment_intent.succeeded", objectId := "pi_1" })).dispatcherLogs =
      ["✅ Paiement réussi: pi_1"] ∧
    (webhookHandler (.ok { type := "charge.refunded", objectId := "ch_1" })).dispatcherLogs =
      ["Événement non géré: charge.refunded"] ∧
    (webhookHandler (.ok { type := "charge.refunded", objectId := "ch_1" })).response =
      { status := 200, body := .json true } :=
  ⟨((webhook_dispatch_behaviour _).1 rfl).1,
   ((webhook_dispatch_behaviour _).2 (by decide) (by decide)).1,
   ((webhook_dispatch_behaviour _).2 (by decide) (by decide)).2⟩

/-- C4: when the customer send fails while the admin send succeeds, the
endpoint responds success true, customerEmailSent false,
adminEmailSent true; moreover the boolean recorded for each recipient
depends only on that recipient's own settlement, since both sends are
handed to Promise.allSettled and each outcome is read off its own slot
of the settled array, with no fail-fast short circuit. -/
theorem sendOrderEmails_partial_failure :
    sendOrderEmailsResponse .rejected .fulfilled =
      { success := true, customerEmailSent := false, adminEmailSent := true } ∧
    (∀ c a a', (sendOrderEmailsResponse c a).customerEmailSent =
      (sendOrderEmailsResponse c a').customerEmailSent) ∧
    (∀ c c' a, (sendOrderEmailsResponse c a).adminEmailSent =
      (sendOrderEmailsResponse c' a).adminEmailSent) := by
  refine ⟨rfl, ?_, ?_⟩ <;> intro x y z <;> cases x <;> cases y <;> cases z <;> rfl

/-- C7 (counterexample): at an item whose caller-supplied unitPrice is
10.00 while its price field is 15.00, the line rendered by the route
shows 15.00, differs from the line the claim prescribes from unitPrice,
and the rendered list does not contain 10.00 anywhere. -/
theorem itemsList_unitPrice_cex :
    itemsList [cexItem] = "2x Widget - 15.00€" ∧
    itemsList [cexItem] ≠ specItemLine cexItem ∧
    listContainsB "10.00".data (itemsList [cexItem]).data = false :=
  ⟨rfl, by decide, by decide⟩

/-- C7 (amended): the route formats the item list as exactly one line
per item, each of the form quantity, x, name, hyphen, price, euro sign,
where the price shown is the price field of the item (the field the
code reads; the data model of the spec calls this value unitPrice), and
the lines appear joined by newlines in the same order as the items
sequence of the input order. -/
theorem itemsList_per_item_lines (items : List OrderItem) :
    itemsList items = String.intercalate "\n" (amendedItemLines items) ∧
    (amendedItemLines items).length = items.length := by
  constructor
  · unfold itemsList
    congr 1
    induction items with
    | nil => rfl
    | cons i rest ih => simp [amendedItemLines, itemLine, ih]
  · induction items with
    | nil => rfl
    | cons i rest ih => simp [amendedItemLines, ih]

theorem containsStr_left (a x : String) : ContainsStr (a ++ x) x :=
  ⟨a, "", by rw [String.append_empty]⟩

theorem containsStr_appendR (s t x : String) (h : ContainsStr s x) : ContainsStr (s ++ t) x :=
  let ⟨p, q, hp⟩ := h
  ⟨p, q ++ t, by rw [hp, String.append_assoc, String.append_assoc]⟩

/-- Sanity check that the cents computation of toFixed2 is the floor of
100 times the amount plus one half, the rounding of total.toFixed(2)
for the data model's nonnegative totals. -/
theorem toFixed2_cents (q : ℚ) :
    Int.fdiv (200 * q.num + q.den) (2 * q.den) = ⌊(q * 100 + 1/2 : ℚ)⌋ := by
  have hden : ((q.den : ℕ) : ℚ) ≠ 0 := Nat.cast_ne_zero.mpr q.den_nz
  have hqd : q * ((q.den : ℕ) : ℚ) = ((q.num : ℤ) : ℚ) := by
    nth_rewrite 1 [← Rat.num_div_den q]
    rw [div_mul_cancel₀ _ hden]
  have h1 : (q * 100 + 1/2 : ℚ) =
      ((200 * q.num + (q.den:ℤ) : ℤ) : ℚ) / ((2 * q.den : ℕ) : ℚ) := by
    rw [eq_div_iff (by positivity)]
    push_cast at hqd ⊢
    linear_combination (200 : ℚ) * hqd
  rw [h1, Rat.floor_intCast_div_natCast, Int.fdiv_eq_ediv _ (by positivity)]
  push_cast
  rfl

/-- C8: the admin message html contains the payment identifier whenever
it is present and nonempty, contains the marker N/A when it is absent,
contains the notes heading and paragraph built from orderNotes whenever
notes are present and nonempty, and when notes are absent the html is
exactly the surrounding parts concatenated with nothing in between: the
section is omitted entirely, never rendered as an empty section;
additionally, at the concrete order without notes, the text of a notes
heading occurs nowhere in the rendered html. -/
theorem adminEmail_payment_and_notes (fu : String) (o : Order) :
    (∀ p, o.paymentId = some p → p ≠ "" → ContainsStr (adminEmailHtml fu o) p) ∧
    (o.paymentId = none → ContainsStr (adminEmailHtml fu o) "N/A") ∧
    (∀ n, o.orderNotes = some n → n ≠ "" →
      ContainsStr (adminEmailHtml fu o) ("<h3>Notes</h3><p>" ++ n ++ "</p>")) ∧
    (o.orderNotes = none →
      adminEmailHtml fu o =
        adminHtmlPre o ++ jsOrElse o.paymentId "N/A" ++ adminHtmlMid o ++ adminHtmlPost fu) ∧
    listContainsB "<h3>Notes</h3>".data
      (adminEmailHtml "http://localhost:8000" sampleOrderNoNotes).data = false := by
  refine ⟨?_, ?_, ?_, ?_, ?_⟩
  · intro p hp hne
    unfold adminEmailHtml
    rw [show jsOrElse o.paymentId "N/A" = p by simp [jsOrElse, hp, hne]]
    exact containsStr_appendR _ _ _ (containsStr_appendR _ _ _
      (containsStr_appendR _ _ _ (containsStr_left _ _)))
  · intro hp
    unfold adminEmailHtml
    rw [show jsOrElse o.paymentId "N/A" = "N/A" by simp [jsOrElse, hp]]
    exact containsStr_appendR _ _ _ (containsStr_appendR _ _ _
      (containsStr_appendR _ _ _ (containsStr_left _ _)))
  · intro n hn hne
    unfold adminEmailHtml
    rw [show notesSection o.orderNotes = "<h3>Notes</h3><p>" ++ n ++ "</p>" by
      simp [notesSection, hn, hne]]
    exact containsStr_appendR _ _ _ (containsStr_left _ _)
  · intro hn
    unfold adminEmailHtml
    rw [show notesSection o.orderNotes = "" by simp [notesSection, hn], String.append_empty]
  · set_option maxRecDepth 100000 in decide

/-- Witness for C8 at concrete orders: the admin html of the order with
payment identifier pi_3ABC and notes Fragile contains both; the admin
html of the order without payment identifier contains N/A; the admin
html of the order without notes equals the concatenation of the parts
with no notes section between them. -/
theorem adminEmail_payment_and_notes_witness :
    ContainsStr (adminEmailHtml "http://localhost:8000" sampleOrderFull) "pi_3ABC" ∧
    ContainsStr (adminEmailHtml "http://localhost:8000" sampleOrderFull)
      ("<h3>Notes</h3><p>" ++ "Fragile" ++ "</p>") ∧
    ContainsStr (adminEmailHtml "http://localhost:8000" sampleOrderNoPid) "N/A" ∧
    adminEmailHtml "http://localhost:8000" sampleOrderNoNotes =
      adminHtmlPre sampleOrderNoNotes ++ jsOrElse sampleOrderNoNotes.paymentId "N/A" ++
        adminHtmlMid sampleOrderNoNotes ++ adminHtmlPost "http://localhost:8000" :=
  ⟨(adminEmail_payment_and_notes "http://localhost:8000" sampleOrderFull).1 "pi_3ABC" rfl
      (by decide),
   (adminEmail_payment_and_notes "http://localhost:8000" sampleOrderFull).2.2.1 "Fragile" rfl
      (by decide),
   (adminEmail_payment_and_notes "http://localhost:8000" sampleOrderNoPid).2.1 rfl,
   (adminEmail_payment_and_notes "http://localhost:8000" sampleOrderNoNotes).2.2.2.1 rfl⟩

/-- C9: two orders that differ only in their paymentId field produce
identical customer messages given the same generated-at date and the
same resolved frontend url: no part of the customer-facing message
(headers, subject or html body) reads the payment identifier. -/
theorem customerEmail_ignores_paymentId (fu d : String) (o : Order) (pid pid' : Option String) :
    customerEmailMessage fu d { o with paymentId := pid } =
    customerEmailMessage fu d { o with paymentId := pid' } := rfl

end QG3D
